import Mathlib

/-
  Verification of the QChem error handlers in custodian/qchem/new_handlers.py.

  The module defines two classes, QChemErrorHandler and QChemSCFErrorHandler.
  Each follows the check/correct contract of the surrounding framework:
  check() parses the output file into a dict (outdata) and stores the error
  tag list; correct() selects one remediation branch by an ordered elif chain
  over the tag strings, edits the in-memory input deck (qcinp), optionally
  writes it back to disk, and returns {errors, actions}.

  The embedding below models the deck's rem mapping as an association list
  of string keys to Python-like values, Python's `!=` comparison between a
  dict .get() result and a literal, Python truthiness, `.lower()`, `assert`,
  and the NameError raised by an undefined identifier; correct() is a total
  function into Except so that the assertion-failure and NameError paths are
  explicit values.
-/

set_option autoImplicit false

namespace Custodian

/-- A Python value stored in the rem mapping of a QChem input deck:
the deck settings in this module are ints, strings or booleans. -/
inductive RemValue where
  | int (n : Int)
  | str (s : String)
  | bool (b : Bool)
deriving DecidableEq, Repr

/-- The rem settings mapping of the input deck: ordered key/value pairs,
first occurrence of a key wins, as in a Python dict model. -/
abbrev Rem := List (String × RemValue)

/-- `rem.get(k)`: the value at the first occurrence of key `k`, if any. -/
def remGet (rem : Rem) (k : String) : Option RemValue :=
  match rem with
  | [] => Option.none
  | (k2, v) :: rest => if k2 = k then some v else remGet rest k

/-- `rem.get(k, d)`: lookup with a default. -/
def remGetD (rem : Rem) (k : String) (d : RemValue) : RemValue :=
  (remGet rem k).getD d

/-- `rem[k] = v`: replace the value at the first occurrence of `k`,
or append the pair if `k` is absent. -/
def remSet (rem : Rem) (k : String) (v : RemValue) : Rem :=
  match rem with
  | [] => [(k, v)]
  | (k2, v2) :: rest =>
      if k2 = k then (k, v) :: rest else (k2, v2) :: remSet rest k v

/-- Python `==` between two rem values: True equals 1 and False equals 0,
values of otherwise different types are unequal. -/
def pyEqVal : RemValue → RemValue → Bool
  | RemValue.int a, RemValue.int b => a == b
  | RemValue.str a, RemValue.str b => a == b
  | RemValue.bool a, RemValue.bool b => a == b
  | RemValue.bool a, RemValue.int b => (if a then (1 : Int) else 0) == b
  | RemValue.int a, RemValue.bool b => a == (if b then (1 : Int) else 0)
  | _, _ => false

/-- Python `x != w` where `x` is a `.get()` result (possibly None) and `w`
a non-None literal: None is unequal to every non-None value. -/
def pyNe (x : Option RemValue) (w : RemValue) : Bool :=
  match x with
  | Option.none => true
  | some v => !pyEqVal v w

/-- Python truthiness of a `.get()` result: None, 0, "" and False are falsy. -/
def truthy : Option RemValue → Bool
  | Option.none => false
  | some (RemValue.int n) => n != 0
  | some (RemValue.str s) => s != ""
  | some (RemValue.bool b) => b

/-- A Python exception raised inside the handlers. -/
inductive PyError where
  /-- A failed `assert` statement. -/
  | assertionError
  /-- Reference to an undefined identifier. -/
  | nameError
  /-- Calling `.lower()` on a non-string rem value. -/
  | attributeError
deriving DecidableEq, Repr

/-- Lowercase a string character by character, as Python str.lower does on
the ASCII setting names used in this module. -/
def strLower (s : String) : String :=
  String.mk (s.data.map Char.toLower)

/-- Python `v.lower()`: lowercases a string, raises AttributeError on a
non-string value. -/
def pyLower : RemValue → Except PyError String
  | RemValue.str s => Except.ok (strLower s)
  | _ => Except.error PyError.attributeError

/-- The molecule descriptor of a deck or of a parsed output: spin
multiplicity, charge, and an abstract geometry identifier standing for the
coordinates. -/
structure Molecule where
  spin_multiplicity : Int
  charge : Int
  geometry : Nat
deriving DecidableEq, Repr

/-- The in-memory QChem input deck (QCInput): a rem settings mapping and a
molecule. -/
structure QCInput where
  rem : Rem
  molecule : Molecule
deriving DecidableEq, Repr

/-- The parsed output data (QCOutput(...).data) used by the handlers: the
error tag list, the energy trajectory (only its length is consulted), and
the molecule from the last geometry step. -/
structure Outdata where
  errors : List String
  energy_trajectory : List Int
  molecule_from_last_geometry : Molecule
deriving DecidableEq, Repr

/-- The state of a QChemErrorHandler instance after check(): configured
file names and limits, the deck loaded at construction, the parsed output
and the captured error tags. -/
structure QChemErrorHandler where
  input_file : String
  output_file : String
  scf_max_cycles : Int
  geom_max_cycles : Int
  qcinp : QCInput
  outdata : Outdata
  errors : List String
deriving DecidableEq, Repr

/-- The actions field of the record returned by correct(): an ordered list
of single-field action records, the literal string "rerun job as-is", or
None. -/
inductive ActionsResult where
  | list (as : List (String × RemValue))
  | rerunAsIs
  | none
deriving DecidableEq, Repr

/-- The observable outcome of a normal return from correct(): the final
in-memory deck, the returned errors and actions, and the deck written to
the input file by write_file (None when no write occurred). -/
structure CorrectOutcome where
  qcinp : QCInput
  errors : List String
  actions : ActionsResult
  written : Option QCInput
deriving DecidableEq, Repr

namespace QChemErrorHandler

/-- check(): store the freshly parsed output and its error tags, and report
whether any error was found. -/
def check (h : QChemErrorHandler) (out : Outdata) : QChemErrorHandler × Bool :=
  ({ h with outdata := out, errors := out.errors }, out.errors.length > 0)

/-- The SCF_failed_to_converge branch of correct(): raise max_scf_cycles to
the configured limit if it differs, else switch a DIIS (or unset) SCF
algorithm to rca_diis, else print a deferral message; all three arms fall
through to write_file. -/
def scfBranch (h : QChemErrorHandler) : Except PyError CorrectOutcome :=
  if pyNe (remGet h.qcinp.rem "max_scf_cycles") (RemValue.int h.scf_max_cycles) then
    Except.ok { qcinp := { h.qcinp with rem := remSet h.qcinp.rem "max_scf_cycles" (RemValue.int h.scf_max_cycles) },
                errors := h.errors,
                actions := ActionsResult.list [("max_scf_cycles", RemValue.int h.scf_max_cycles)],
                written := some { h.qcinp with rem := remSet h.qcinp.rem "max_scf_cycles" (RemValue.int h.scf_max_cycles) } }
  else
    match pyLower (remGetD h.qcinp.rem "scf_algorithm" (RemValue.str "diis")) with
    | Except.error e => Except.error e
    | Except.ok alg =>
      if alg = "diis" then
        Except.ok { qcinp := { h.qcinp with rem := remSet h.qcinp.rem "scf_algorithm" (RemValue.str "rca_diis") },
                    errors := h.errors,
                    actions := ActionsResult.list [("scf_algorithm", RemValue.str "rca_diis")],
                    written := some { h.qcinp with rem := remSet h.qcinp.rem "scf_algorithm" (RemValue.str "rca_diis") } }
      else
        Except.ok { qcinp := h.qcinp, errors := h.errors,
                    actions := ActionsResult.list [], written := some h.qcinp }

/-- The out_of_opt_cycles branch of correct(): set geom_opt_max_cycles to
the configured geom limit if it differs, recording the action under the
literal key "geom_max_cycles:" with value scf_max_cycles as the source
does; else print a deferral message; both arms fall through to
write_file. -/
def optBranch (h : QChemErrorHandler) : Except PyError CorrectOutcome :=
  if pyNe (remGet h.qcinp.rem "geom_opt_max_cycles") (RemValue.int h.geom_max_cycles) then
    Except.ok { qcinp := { h.qcinp with rem := remSet h.qcinp.rem "geom_opt_max_cycles" (RemValue.int h.geom_max_cycles) },
                errors := h.errors,
                actions := ActionsResult.list [("geom_max_cycles:", RemValue.int h.scf_max_cycles)],
                written := some { h.qcinp with rem := remSet h.qcinp.rem "geom_opt_max_cycles" (RemValue.int h.geom_max_cycles) } }
  else
    Except.ok { qcinp := h.qcinp, errors := h.errors,
                actions := ActionsResult.list [], written := some h.qcinp }

/-- The unable_to_determine_lamda branch of correct(): with more than one
energy-trajectory step, assert spin and charge unchanged and adopt the
last-geometry molecule; with at most one step, switch a non-rca_diis SCF
algorithm to rca_diis; else print a deferral message; all arms fall
through to write_file. -/
def lamdaBranch (h : QChemErrorHandler) : Except PyError CorrectOutcome :=
  if h.outdata.energy_trajectory.length > 1 then
    if h.qcinp.molecule.spin_multiplicity = h.outdata.molecule_from_last_geometry.spin_multiplicity then
      if h.qcinp.molecule.charge = h.outdata.molecule_from_last_geometry.charge then
        Except.ok { qcinp := { h.qcinp with molecule := h.outdata.molecule_from_last_geometry },
                    errors := h.errors,
                    actions := ActionsResult.list [("molecule", RemValue.str "molecule_from_last_geometry")],
                    written := some { h.qcinp with molecule := h.outdata.molecule_from_last_geometry } }
      else Except.error PyError.assertionError
    else Except.error PyError.assertionError
  else
    match pyLower (remGetD h.qcinp.rem "scf_algorithm" (RemValue.str "diis")) with
    | Except.error e => Except.error e
    | Except.ok alg =>
      if alg ≠ "rca_diis" then
        Except.ok { qcinp := { h.qcinp with rem := remSet h.qcinp.rem "scf_algorithm" (RemValue.str "rca_diis") },
                    errors := h.errors,
                    actions := ActionsResult.list [("scf_algorithm", RemValue.str "rca_diis")],
                    written := some { h.qcinp with rem := remSet h.qcinp.rem "scf_algorithm" (RemValue.str "rca_diis") } }
      else
        Except.ok { qcinp := h.qcinp, errors := h.errors,
                    actions := ActionsResult.list [], written := some h.qcinp }

/-- The linear_dependent_basis branch of correct(): switch the SCF
algorithm to rca_diis unless it is already exactly "rca_diis"; else print
a deferral message; both arms fall through to write_file. -/
def basisBranch (h : QChemErrorHandler) : Except PyError CorrectOutcome :=
  if pyNe (remGet h.qcinp.rem "scf_algorithm") (RemValue.str "rca_diis") then
    Except.ok { qcinp := { h.qcinp with rem := remSet h.qcinp.rem "scf_algorithm" (RemValue.str "rca_diis") },
                errors := h.errors,
                actions := ActionsResult.list [("scf_algorithm", RemValue.str "rca_diis")],
                written := some { h.qcinp with rem := remSet h.qcinp.rem "scf_algorithm" (RemValue.str "rca_diis") } }
  else
    Except.ok { qcinp := h.qcinp, errors := h.errors,
                actions := ActionsResult.list [], written := some h.qcinp }

/-- The failed_to_transform_coords branch of correct(): when sym_ignore is
falsy or symmetry is truthy, set sym_ignore True and symmetry False and
record both actions; else print a deferral message; both arms fall through
to write_file. -/
def coordsBranch (h : QChemErrorHandler) : Except PyError CorrectOutcome :=
  if !truthy (remGet h.qcinp.rem "sym_ignore") || truthy (remGet h.qcinp.rem "symmetry") then
    Except.ok { qcinp := { h.qcinp with rem := remSet (remSet h.qcinp.rem "sym_ignore" (RemValue.bool true)) "symmetry" (RemValue.bool false) },
                errors := h.errors,
                actions := ActionsResult.list [("sym_ignore", RemValue.bool true), ("symmetry", RemValue.bool false)],
                written := some { h.qcinp with rem := remSet (remSet h.qcinp.rem "sym_ignore" (RemValue.bool true)) "symmetry" (RemValue.bool false) } }
  else
    Except.ok { qcinp := h.qcinp, errors := h.errors,
                actions := ActionsResult.list [], written := some h.qcinp }

/-- correct(): the ordered elif chain over the error tag strings. The five
structural branches end at write_file; input_file_error, cannot_read_charges
and unknown_error return {errors, None} early; failed_to_read_input and
IO_error return {errors, "rerun job as-is"} early; the defensive final
else calls the undefined identifier Print, raising NameError. -/
def correct (h : QChemErrorHandler) : Except PyError CorrectOutcome :=
  if h.errors.contains "SCF_failed_to_converge" then scfBranch h
  else if h.errors.contains "out_of_opt_cycles" then optBranch h
  else if h.errors.contains "unable_to_determine_lamda" then lamdaBranch h
  else if h.errors.contains "linear_dependent_basis" then basisBranch h
  else if h.errors.contains "failed_to_transform_coords" then coordsBranch h
  else if h.errors.contains "input_file_error" then
    Except.ok { qcinp := h.qcinp, errors := h.errors,
                actions := ActionsResult.none, written := Option.none }
  else if h.errors.contains "failed_to_read_input" then
    Except.ok { qcinp := h.qcinp, errors := h.errors,
                actions := ActionsResult.rerunAsIs, written := Option.none }
  else if h.errors.contains "IO_error" then
    Except.ok { qcinp := h.qcinp, errors := h.errors,
                actions := ActionsResult.rerunAsIs, written := Option.none }
  else if h.errors.contains "cannot_read_charges" then
    Except.ok { qcinp := h.qcinp, errors := h.errors,
                actions := ActionsResult.none, written := Option.none }
  else if h.errors.contains "unknown_error" then
    Except.ok { qcinp := h.qcinp, errors := h.errors,
                actions := ActionsResult.none, written := Option.none }
  else Except.error PyError.nameError

end QChemErrorHandler

/-- The tag strings recognized by correct(), in the order of its elif
chain. -/
def tagOrder : List String :=
  ["SCF_failed_to_converge", "out_of_opt_cycles", "unable_to_determine_lamda",
   "linear_dependent_basis", "failed_to_transform_coords", "input_file_error",
   "failed_to_read_input", "IO_error", "cannot_read_charges", "unknown_error"]

/-- The first tag of the recognized order present in the captured error
list, if any. -/
def firstTag (errors : List String) : Option String :=
  tagOrder.find? (fun t => errors.contains t)

/-- The branch of correct() selected by a recognized tag; unrecognized
selection falls to the defensive NameError branch. -/
def branchOf (t : String) (h : QChemErrorHandler) : Except PyError CorrectOutcome :=
  if t = "SCF_failed_to_converge" then QChemErrorHandler.scfBranch h
  else if t = "out_of_opt_cycles" then QChemErrorHandler.optBranch h
  else if t = "unable_to_determine_lamda" then QChemErrorHandler.lamdaBranch h
  else if t = "linear_dependent_basis" then QChemErrorHandler.basisBranch h
  else if t = "failed_to_transform_coords" then QChemErrorHandler.coordsBranch h
  else if t = "input_file_error" then
    Except.ok { qcinp := h.qcinp, errors := h.errors,
                actions := ActionsResult.none, written := Option.none }
  else if t = "failed_to_read_input" then
    Except.ok { qcinp := h.qcinp, errors := h.errors,
                actions := ActionsResult.rerunAsIs, written := Option.none }
  else if t = "IO_error" then
    Except.ok { qcinp := h.qcinp, errors := h.errors,
                actions := ActionsResult.rerunAsIs, written := Option.none }
  else if t = "cannot_read_charges" then
    Except.ok { qcinp := h.qcinp, errors := h.errors,
                actions := ActionsResult.none, written := Option.none }
  else if t = "unknown_error" then
    Except.ok { qcinp := h.qcinp, errors := h.errors,
                actions := ActionsResult.none, written := Option.none }
  else Except.error PyError.nameError

/-- Resolution of a bare identifier against the integer-valued names in
scope; an absent name raises NameError. -/
def resolveName (scope : List (String × Int)) (name : String) : Except PyError Int :=
  match scope.find? (fun p => p.1 == name) with
  | some p => Except.ok p.2
  | Option.none => Except.error PyError.nameError

/-- The state a QChemSCFErrorHandler instance would have after a completed
construction. -/
structure QChemSCFErrorHandler where
  input_file : String
  output_file : String
  scf_max_cycles : Int
  geom_max_cycles : Int
  qcinp : QCInput
  errors : List String
deriving DecidableEq, Repr

namespace QChemSCFErrorHandler

/-- QChemSCFErrorHandler.__init__: after assigning input_file, output_file
and scf_max_cycles, the line `self.geom_max_cycles = geom_max_cycles` reads
the bare name geom_max_cycles, which is not among the parameters of
__init__ (input_file, output_file, rca_gdm_thresh, scf_max_cycles,
qchem_job), so name resolution over the integer names in scope fails. -/
def init (input_file output_file : String) (rca_gdm_thresh : Rat)
    (scf_max_cycles : Int) (deck : QCInput) : Except PyError QChemSCFErrorHandler :=
  match resolveName [("scf_max_cycles", scf_max_cycles)] "geom_max_cycles" with
  | Except.error e => Except.error e
  | Except.ok g =>
      Except.ok { input_file := input_file, output_file := output_file,
                  scf_max_cycles := scf_max_cycles, geom_max_cycles := g,
                  qcinp := deck, errors := [] }

/-- QChemSCFErrorHandler.correct(): the unimplemented stub; prints a
message and returns {errors, None} with no deck edit and no file write. -/
def correct (h : QChemSCFErrorHandler) : Except PyError CorrectOutcome :=
  Except.ok { qcinp := h.qcinp, errors := h.errors,
              actions := ActionsResult.none, written := Option.none }

end QChemSCFErrorHandler

/-- Looking a key up right after setting it yields the value just set. -/
theorem remGet_remSet_self (rem : Rem) (k : String) (v : RemValue) :
    remGet (remSet rem k v) k = some v := by
  induction rem with
  | nil => simp [remSet, remGet]
  | cons p rest ih =>
      obtain ⟨k2, v2⟩ := p
      by_cases hk : k2 = k <;> simp [remSet, remGet, hk, ih]

/-- Setting one key leaves the lookup of a different key unchanged. -/
theorem remGet_remSet_ne (rem : Rem) (k k2 : String) (v : RemValue) (hne : k2 ≠ k) :
    remGet (remSet rem k v) k2 = remGet rem k2 := by
  induction rem with
  | nil => simp [remSet, remGet, Ne.symm hne]
  | cons p rest ih =>
      obtain ⟨k3, v3⟩ := p
      by_cases hk : k3 = k
      · subst hk
        simp [remSet, remGet, Ne.symm hne]
      · simp [remSet, remGet, hk, ih]

/-- Lowercasing the literal "diis" is the identity. -/
theorem strLower_diis : strLower "diis" = "diis" := rfl

/-- Lowercasing the literal "rca_diis" is the identity. -/
theorem strLower_rca_diis : strLower "rca_diis" = "rca_diis" := rfl

/-- A default molecule used by the concrete decks below. -/
def mol0 : Molecule := { spin_multiplicity := 1, charge := 0, geometry := 0 }

/-- A default handler state used as the base of the concrete instances in
the witnesses and counterexamples below. -/
def h0 : QChemErrorHandler :=
  { input_file := "mol.qcin", output_file := "mol.qcout",
    scf_max_cycles := 200, geom_max_cycles := 200,
    qcinp := { rem := [], molecule := mol0 },
    outdata := { errors := [], energy_trajectory := [0],
                 molecule_from_last_geometry := mol0 },
    errors := [] }

/-- The frame property of one normal return from correct(), relative to the
pre-call handler state: the captured errors are echoed back; on the early
return paths (actions None or the transient rerun string) no write occurred
and the deck is untouched; whenever an actions list is returned the file
was rewritten with exactly the final deck; and an empty actions list means
the deck content is unchanged (though rewritten). -/
def FrameOk (h : QChemErrorHandler) (o : CorrectOutcome) : Prop :=
  o.errors = h.errors ∧
  ((o.actions = ActionsResult.none ∨ o.actions = ActionsResult.rerunAsIs) →
      (o.written = Option.none ∧ o.qcinp = h.qcinp)) ∧
  (∀ as, o.actions = ActionsResult.list as → o.written = some o.qcinp) ∧
  (o.actions = ActionsResult.list [] → o.qcinp = h.qcinp)

/-- The shape every structural branch outcome has: echoed errors, a list of
actions, a write of the final deck, and an unchanged deck when the list is
empty. -/
def StructuralOk (h : QChemErrorHandler) (o : CorrectOutcome) : Prop :=
  o.errors = h.errors ∧ (∃ as, o.actions = ActionsResult.list as) ∧
  o.written = some o.qcinp ∧
  (o.actions = ActionsResult.list [] → o.qcinp = h.qcinp)

/-- A structural outcome satisfies the frame property. -/
theorem structuralOk_frameOk (h : QChemErrorHandler) (o : CorrectOutcome)
    (hs : StructuralOk h o) : FrameOk h o := by
  obtain ⟨he, ⟨as, ha⟩, hw, hemp⟩ := hs
  refine ⟨he, ?_, fun _ _ => hw, hemp⟩
  rintro (hc | hc) <;> rw [ha] at hc <;> cases hc

/-- The SCF branch always ends at write_file with a list of actions. -/
theorem scfBranch_structural (h : QChemErrorHandler) (o : CorrectOutcome)
    (hok : QChemErrorHandler.scfBranch h = Except.ok o) : StructuralOk h o := by
  unfold QChemErrorHandler.scfBranch at hok
  split at hok
  · injection hok with h2; subst h2
    exact ⟨rfl, ⟨_, rfl⟩, rfl, by simp⟩
  · split at hok
    · cases hok
    · split at hok
      · injection hok with h2; subst h2
        exact ⟨rfl, ⟨_, rfl⟩, rfl, by simp⟩
      · injection hok with h2; subst h2
        exact ⟨rfl, ⟨_, rfl⟩, rfl, fun _ => rfl⟩

/-- The opt-cycles branch always ends at write_file with a list of actions. -/
theorem optBranch_structural (h : QChemErrorHandler) (o : CorrectOutcome)
    (hok : QChemErrorHandler.optBranch h = Except.ok o) : StructuralOk h o := by
  unfold QChemErrorHandler.optBranch at hok
  split at hok
  · injection hok with h2; subst h2
    exact ⟨rfl, ⟨_, rfl⟩, rfl, by simp⟩
  · injection hok with h2; subst h2
    exact ⟨rfl, ⟨_, rfl⟩, rfl, fun _ => rfl⟩

/-- The lamda branch always ends at write_file with a list of actions. -/
theorem lamdaBranch_structural (h : QChemErrorHandler) (o : CorrectOutcome)
    (hok : QChemErrorHandler.lamdaBranch h = Except.ok o) : StructuralOk h o := by
  unfold QChemErrorHandler.lamdaBranch at hok
  split at hok
  · split at hok
    · split at hok
      · injection hok with h2; subst h2
        exact ⟨rfl, ⟨_, rfl⟩, rfl, by simp⟩
      · cases hok
    · cases hok
  · split at hok
    · cases hok
    · split at hok
      · injection hok with h2; subst h2
        exact ⟨rfl, ⟨_, rfl⟩, rfl, by simp⟩
      · injection hok with h2; subst h2
        exact ⟨rfl, ⟨_, rfl⟩, rfl, fun _ => rfl⟩

/-- The basis branch always ends at write_file with a list of actions. -/
theorem basisBranch_structural (h : QChemErrorHandler) (o : CorrectOutcome)
    (hok : QChemErrorHandler.basisBranch h = Except.ok o) : StructuralOk h o := by
  unfold QChemErrorHandler.basisBranch at hok
  split at hok
  · injection hok with h2; subst h2
    exact ⟨rfl, ⟨_, rfl⟩, rfl, by simp⟩
  · injection hok with h2; subst h2
    exact ⟨rfl, ⟨_, rfl⟩, rfl, fun _ => rfl⟩

/-- The coords branch always ends at write_file with a list of actions. -/
theorem coordsBranch_structural (h : QChemErrorHandler) (o : CorrectOutcome)
    (hok : QChemErrorHandler.coordsBranch h = Except.ok o) : StructuralOk h o := by
  unfold QChemErrorHandler.coordsBranch at hok
  split at hok
  · injection hok with h2; subst h2
    exact ⟨rfl, ⟨_, rfl⟩, rfl, by simp⟩
  · injection hok with h2; subst h2
    exact ⟨rfl, ⟨_, rfl⟩, rfl, fun _ => rfl⟩

/-- C1 (amended): on every normal return of correct() the captured errors
are echoed; the early-return paths (actions None or the transient rerun
signal) perform no file write and leave the deck untouched; every path
returning an actions list — including the recognized structural tags'
print-only deferral arms, whose list is empty — rewrites the input file
with exactly the final deck; and when that list is empty the deck content
is unchanged, so the rewrite carries no edit. -/
theorem c1_write_consistency (h : QChemErrorHandler) (o : CorrectOutcome)
    (hok : QChemErrorHandler.correct h = Except.ok o) : FrameOk h o := by
  unfold QChemErrorHandler.correct at hok
  split at hok
  · exact structuralOk_frameOk h o (scfBranch_structural h o hok)
  split at hok
  · exact structuralOk_frameOk h o (optBranch_structural h o hok)
  split at hok
  · exact structuralOk_frameOk h o (lamdaBranch_structural h o hok)
  split at hok
  · exact structuralOk_frameOk h o (basisBranch_structural h o hok)
  split at hok
  · exact structuralOk_frameOk h o (coordsBranch_structural h o hok)
  split at hok
  · injection hok with h2
    subst h2
    exact ⟨rfl, fun _ => ⟨rfl, rfl⟩, fun as ha => ActionsResult.noConfusion ha, fun ha => ActionsResult.noConfusion ha⟩
  split at hok
  · injection hok with h2
    subst h2
    exact ⟨rfl, fun _ => ⟨rfl, rfl⟩, fun as ha => ActionsResult.noConfusion ha, fun ha => ActionsResult.noConfusion ha⟩
  split at hok
  · injection hok with h2
    subst h2
    exact ⟨rfl, fun _ => ⟨rfl, rfl⟩, fun as ha => ActionsResult.noConfusion ha, fun ha => ActionsResult.noConfusion ha⟩
  split at hok
  · injection hok with h2
    subst h2
    exact ⟨rfl, fun _ => ⟨rfl, rfl⟩, fun as ha => ActionsResult.noConfusion ha, fun ha => ActionsResult.noConfusion ha⟩
  split at hok
  · injection hok with h2
    subst h2
    exact ⟨rfl, fun _ => ⟨rfl, rfl⟩, fun as ha => ActionsResult.noConfusion ha, fun ha => ActionsResult.noConfusion ha⟩
  exact Except.noConfusion hok

/-- A handler whose SCF branch reaches the print-only deferral arm: the
cap already equals the limit and the algorithm is "gdm". -/
def hC1 : QChemErrorHandler :=
  { h0 with errors := ["SCF_failed_to_converge"],
            qcinp := { rem := [("max_scf_cycles", RemValue.int 200),
                               ("scf_algorithm", RemValue.str "gdm")],
                       molecule := mol0 } }

/-- C1 counterexample: on the SCF deferral path that only prints a
diagnostic, actions is the empty list yet write_file still runs: the input
file is rewritten, not untouched. -/
theorem c1_counterexample :
    QChemErrorHandler.correct hC1 = Except.ok
      { qcinp := hC1.qcinp, errors := hC1.errors,
        actions := ActionsResult.list [], written := some hC1.qcinp } ∧
    some hC1.qcinp ≠ (Option.none : Option QCInput) := by
  exact ⟨rfl, by simp⟩

/-- C1 witness: the frame property at the concrete deferral handler. -/
theorem c1_write_consistency_witness :
    QChemErrorHandler.correct hC1 = Except.ok
      { qcinp := hC1.qcinp, errors := hC1.errors,
        actions := ActionsResult.list [], written := some hC1.qcinp } ∧
    FrameOk hC1
      { qcinp := hC1.qcinp, errors := hC1.errors,
        actions := ActionsResult.list [], written := some hC1.qcinp } :=
  ⟨rfl, c1_write_consistency hC1 _ rfl⟩

/-- A handler with the out_of_opt_cycles tag, scf limit 200 and geom limit
300, whose deck has no geom_opt_max_cycles entry. -/
def hC2 : QChemErrorHandler :=
  { h0 with errors := ["out_of_opt_cycles"], geom_max_cycles := 300 }

/-- C2: with the out_of_opt_cycles tag the deck field geom_opt_max_cycles
is set to the geom limit 300, but the returned action record is
[{"geom_max_cycles:": 200}]: its key (a literal with a trailing colon) is
not the changed field's key and its value is the scf limit, not the value
written into the deck. -/
theorem c2_opt_action_record_bug :
    QChemErrorHandler.correct hC2 = Except.ok
      { qcinp := { rem := [("geom_opt_max_cycles", RemValue.int 300)], molecule := mol0 },
        errors := ["out_of_opt_cycles"],
        actions := ActionsResult.list [("geom_max_cycles:", RemValue.int 200)],
        written := some { rem := [("geom_opt_max_cycles", RemValue.int 300)], molecule := mol0 } } ∧
    ("geom_max_cycles:" ≠ "geom_opt_max_cycles" ∧ RemValue.int 200 ≠ RemValue.int 300) :=
  ⟨rfl, by decide, by decide⟩

/-- A handler whose captured error list holds no recognized tag. -/
def hC4 : QChemErrorHandler := { h0 with errors := ["bogus_error_tag"] }

/-- C4 counterexample: on an unrecognized non-empty tag set, correct()
does not return {errors, actions None}: it raises NameError from the
undefined identifier Print in the defensive else branch. -/
theorem c4_counterexample :
    QChemErrorHandler.correct hC4 = Except.error PyError.nameError ∧
    QChemErrorHandler.correct hC4 ≠ Except.ok
      { qcinp := hC4.qcinp, errors := hC4.errors,
        actions := ActionsResult.none, written := Option.none } := by
  constructor
  · rfl
  · intro hcontra
    rw [show QChemErrorHandler.correct hC4 = Except.error PyError.nameError from rfl] at hcontra
    exact Except.noConfusion hcontra

/-- C4 (amended): for every non-empty tag set containing none of the
recognized tag strings, correct() reaches the defensive else branch and
raises NameError (the undefined identifier Print) instead of returning;
no action is taken and no file write occurs. -/
theorem c4_unrecognized_raises (h : QChemErrorHandler) (hne : h.errors ≠ [])
    (hnone : ∀ t, t ∈ tagOrder → t ∉ h.errors) :
    QChemErrorHandler.correct h = Except.error PyError.nameError := by
  have h1 := hnone "SCF_failed_to_converge" (by simp [tagOrder])
  have h2 := hnone "out_of_opt_cycles" (by simp [tagOrder])
  have h3 := hnone "unable_to_determine_lamda" (by simp [tagOrder])
  have h4 := hnone "linear_dependent_basis" (by simp [tagOrder])
  have h5 := hnone "failed_to_transform_coords" (by simp [tagOrder])
  have h6 := hnone "input_file_error" (by simp [tagOrder])
  have h7 := hnone "failed_to_read_input" (by simp [tagOrder])
  have h8 := hnone "IO_error" (by simp [tagOrder])
  have h9 := hnone "cannot_read_charges" (by simp [tagOrder])
  have h10 := hnone "unknown_error" (by simp [tagOrder])
  simp [QChemErrorHandler.correct, h1, h2, h3, h4, h5, h6, h7, h8, h9, h10]

/-- C4 witness: the amended behavior at the concrete unrecognized tag. -/
theorem c4_unrecognized_raises_witness :
    hC4.errors ≠ [] ∧ (∀ t, t ∈ tagOrder → t ∉ hC4.errors) ∧
    QChemErrorHandler.correct hC4 = Except.error PyError.nameError :=
  ⟨by decide, by decide, c4_unrecognized_raises hC4 (by decide) (by decide)⟩

/-- A handler whose tag list holds the spec's spelling
"unable_to_determine_lambda" with a two-step trajectory and matching
spin and charge: everything the claim requires for geometry adoption. -/
def hC3x : QChemErrorHandler :=
  { h0 with errors := ["unable_to_determine_lambda"],
            outdata := { errors := ["unable_to_determine_lambda"],
                         energy_trajectory := [0, 1],
                         molecule_from_last_geometry :=
                           { spin_multiplicity := 1, charge := 0, geometry := 7 } } }

/-- C3 counterexample: with the tag spelled "unable_to_determine_lambda"
as the claim states it and a multi-step trajectory, correct() does not
adopt the last geometry: the code only matches the misspelled string
"unable_to_determine_lamda", so the tag is unrecognized and the call
raises NameError in the defensive else branch. -/
theorem c3_counterexample :
    hC3x.errors.contains "unable_to_determine_lambda" = true ∧
    hC3x.outdata.energy_trajectory.length > 1 ∧
    QChemErrorHandler.correct hC3x = Except.error PyError.nameError := by
  exact ⟨rfl, by decide, rfl⟩

/-- C3 (amended): for a tag set containing the code's tag spelling
"unable_to_determine_lamda" (and neither earlier tag), a trajectory of
more than one step adopts the last geometry, recording the action
{"molecule": "molecule_from_last_geometry"}, provided its spin
multiplicity and charge equal the deck's; on a mismatch the correction
fails loudly with an assertion error. With at most one step it instead
switches the SCF algorithm to rca_diis when its lowercased value is not
already "rca_diis", else defers with an empty actions list. -/
theorem c3_lamda_behavior (h : QChemErrorHandler)
    (htag : h.errors.contains "unable_to_determine_lamda" = true)
    (h1 : h.errors.contains "SCF_failed_to_converge" = false)
    (h2 : h.errors.contains "out_of_opt_cycles" = false) :
    (h.outdata.energy_trajectory.length > 1 →
      ((h.qcinp.molecule.spin_multiplicity = h.outdata.molecule_from_last_geometry.spin_multiplicity ∧
        h.qcinp.molecule.charge = h.outdata.molecule_from_last_geometry.charge) →
        QChemErrorHandler.correct h = Except.ok
          { qcinp := { h.qcinp with molecule := h.outdata.molecule_from_last_geometry },
            errors := h.errors,
            actions := ActionsResult.list [("molecule", RemValue.str "molecule_from_last_geometry")],
            written := some { h.qcinp with molecule := h.outdata.molecule_from_last_geometry } }) ∧
      (¬(h.qcinp.molecule.spin_multiplicity = h.outdata.molecule_from_last_geometry.spin_multiplicity ∧
         h.qcinp.molecule.charge = h.outdata.molecule_from_last_geometry.charge) →
        QChemErrorHandler.correct h = Except.error PyError.assertionError)) ∧
    (¬(h.outdata.energy_trajectory.length > 1) →
      ∀ a, pyLower (remGetD h.qcinp.rem "scf_algorithm" (RemValue.str "diis")) = Except.ok a →
        ((a ≠ "rca_diis" →
          QChemErrorHandler.correct h = Except.ok
            { qcinp := { h.qcinp with rem := remSet h.qcinp.rem "scf_algorithm" (RemValue.str "rca_diis") },
              errors := h.errors,
              actions := ActionsResult.list [("scf_algorithm", RemValue.str "rca_diis")],
              written := some { h.qcinp with rem := remSet h.qcinp.rem "scf_algorithm" (RemValue.str "rca_diis") } }) ∧
         (a = "rca_diis" →
          QChemErrorHandler.correct h = Except.ok
            { qcinp := h.qcinp, errors := h.errors,
              actions := ActionsResult.list [], written := some h.qcinp }))) := by
  have htag2 : "unable_to_determine_lamda" ∈ h.errors := by simpa using htag
  have h1b : "SCF_failed_to_converge" ∉ h.errors := by simpa using h1
  have h2b : "out_of_opt_cycles" ∉ h.errors := by simpa using h2
  constructor
  · intro htraj
    constructor
    · rintro ⟨hs, hcg⟩
      simp [QChemErrorHandler.correct, htag2, h1b, h2b, QChemErrorHandler.lamdaBranch,
            htraj, hs, hcg]
    · intro hmis
      by_cases hs : h.qcinp.molecule.spin_multiplicity
          = h.outdata.molecule_from_last_geometry.spin_multiplicity
      · have hcg : ¬ h.qcinp.molecule.charge = h.outdata.molecule_from_last_geometry.charge :=
          fun hcg => hmis ⟨hs, hcg⟩
        simp [QChemErrorHandler.correct, htag2, h1b, h2b, QChemErrorHandler.lamdaBranch,
              htraj, hs, hcg]
      · simp [QChemErrorHandler.correct, htag2, h1b, h2b, QChemErrorHandler.lamdaBranch,
              htraj, hs]
  · intro htraj a ha
    constructor
    · intro hne2
      simp [QChemErrorHandler.correct, htag2, h1b, h2b, QChemErrorHandler.lamdaBranch,
            htraj, ha, hne2]
    · intro heq
      subst heq
      simp [QChemErrorHandler.correct, htag2, h1b, h2b, QChemErrorHandler.lamdaBranch,
            htraj, ha]

/-- A handler carrying the code's tag spelling with a two-step trajectory
and matching spin and charge. -/
def hC3w : QChemErrorHandler :=
  { h0 with errors := ["unable_to_determine_lamda"],
            outdata := { errors := ["unable_to_determine_lamda"],
                         energy_trajectory := [0, 1],
                         molecule_from_last_geometry :=
                           { spin_multiplicity := 1, charge := 0, geometry := 7 } } }

/-- C3 witness: the geometry-adoption arm at the concrete handler. -/
theorem c3_lamda_behavior_witness :
    hC3w.errors.contains "unable_to_determine_lamda" = true ∧
    hC3w.outdata.energy_trajectory.length > 1 ∧
    QChemErrorHandler.correct hC3w = Except.ok
      { qcinp := { rem := [], molecule := { spin_multiplicity := 1, charge := 0, geometry := 7 } },
        errors := ["unable_to_determine_lamda"],
        actions := ActionsResult.list [("molecule", RemValue.str "molecule_from_last_geometry")],
        written := some { rem := [], molecule := { spin_multiplicity := 1, charge := 0, geometry := 7 } } } :=
  ⟨rfl, by decide,
    ((c3_lamda_behavior hC3w rfl rfl rfl).1 (by decide)).1 ⟨rfl, rfl⟩⟩

/-- C5: with error tag set {SCF_failed_to_converge} and configured limit
200, an unset max_scf_cycles is set to 200 with actions exactly
[{"max_scf_cycles": 200}], and a deck already at max_scf_cycles = 200 with
scf_algorithm unset gets scf_algorithm = rca_diis with actions exactly
that single change. -/
theorem c5_scf_scenarios (h : QChemErrorHandler)
    (herr : h.errors = ["SCF_failed_to_converge"])
    (hlim : h.scf_max_cycles = 200) :
    (remGet h.qcinp.rem "max_scf_cycles" = Option.none →
      QChemErrorHandler.correct h = Except.ok
        { qcinp := { h.qcinp with rem := remSet h.qcinp.rem "max_scf_cycles" (RemValue.int 200) },
          errors := h.errors,
          actions := ActionsResult.list [("max_scf_cycles", RemValue.int 200)],
          written := some { h.qcinp with rem := remSet h.qcinp.rem "max_scf_cycles" (RemValue.int 200) } } ∧
      remGet (remSet h.qcinp.rem "max_scf_cycles" (RemValue.int 200)) "max_scf_cycles"
        = some (RemValue.int 200)) ∧
    (remGet h.qcinp.rem "max_scf_cycles" = some (RemValue.int 200) →
     remGet h.qcinp.rem "scf_algorithm" = Option.none →
      QChemErrorHandler.correct h = Except.ok
        { qcinp := { h.qcinp with rem := remSet h.qcinp.rem "scf_algorithm" (RemValue.str "rca_diis") },
          errors := h.errors,
          actions := ActionsResult.list [("scf_algorithm", RemValue.str "rca_diis")],
          written := some { h.qcinp with rem := remSet h.qcinp.rem "scf_algorithm" (RemValue.str "rca_diis") } } ∧
      remGet (remSet h.qcinp.rem "scf_algorithm" (RemValue.str "rca_diis")) "scf_algorithm"
        = some (RemValue.str "rca_diis")) := by
  constructor
  · intro hunset
    refine ⟨?_, remGet_remSet_self _ _ _⟩
    simp [QChemErrorHandler.correct, herr, QChemErrorHandler.scfBranch, pyNe, hunset, hlim]
  · intro hset halg
    refine ⟨?_, remGet_remSet_self _ _ _⟩
    simp [QChemErrorHandler.correct, herr, QChemErrorHandler.scfBranch, pyNe, pyEqVal,
          hset, halg, hlim, remGetD, pyLower, strLower_diis]

/-- C5 witness: the two scenarios at the concrete default handler. -/
theorem c5_scf_scenarios_witness :
    ({ h0 with errors := ["SCF_failed_to_converge"] } : QChemErrorHandler).errors
        = ["SCF_failed_to_converge"] ∧
    QChemErrorHandler.correct { h0 with errors := ["SCF_failed_to_converge"] } = Except.ok
      { qcinp := { rem := [("max_scf_cycles", RemValue.int 200)], molecule := mol0 },
        errors := ["SCF_failed_to_converge"],
        actions := ActionsResult.list [("max_scf_cycles", RemValue.int 200)],
        written := some { rem := [("max_scf_cycles", RemValue.int 200)], molecule := mol0 } } ∧
    QChemErrorHandler.correct
        { h0 with errors := ["SCF_failed_to_converge"],
                  qcinp := { rem := [("max_scf_cycles", RemValue.int 200)], molecule := mol0 } }
      = Except.ok
      { qcinp := { rem := [("max_scf_cycles", RemValue.int 200), ("scf_algorithm", RemValue.str "rca_diis")],
                   molecule := mol0 },
        errors := ["SCF_failed_to_converge"],
        actions := ActionsResult.list [("scf_algorithm", RemValue.str "rca_diis")],
        written := some { rem := [("max_scf_cycles", RemValue.int 200), ("scf_algorithm", RemValue.str "rca_diis")],
                          molecule := mol0 } } := by
  refine ⟨rfl, ?_, ?_⟩
  · exact ((c5_scf_scenarios { h0 with errors := ["SCF_failed_to_converge"] } rfl rfl).1 rfl).1
  · exact ((c5_scf_scenarios
      { h0 with errors := ["SCF_failed_to_converge"],
                qcinp := { rem := [("max_scf_cycles", RemValue.int 200)], molecule := mol0 } }
      rfl rfl).2 rfl rfl).1

/-- C6: every construction of QChemSCFErrorHandler raises NameError,
because __init__ reads the name geom_max_cycles which is not among its
parameters; and its correct() is a stub that always returns the captured
errors with actions None, no deck edit and no file write. -/
theorem c6_scf_handler_defect :
    (∀ (i o : String) (t : Rat) (s : Int) (d : QCInput),
      QChemSCFErrorHandler.init i o t s d = Except.error PyError.nameError) ∧
    (∀ hh : QChemSCFErrorHandler,
      QChemSCFErrorHandler.correct hh = Except.ok
        { qcinp := hh.qcinp, errors := hh.errors,
          actions := ActionsResult.none, written := Option.none }) :=
  ⟨fun _ _ _ _ _ => rfl, fun _ => rfl⟩

/-- C7: the singleton tag sets input_file_error, cannot_read_charges and
unknown_error return exactly {errors, actions None} with no file write,
and failed_to_read_input and IO_error return {errors, "rerun job as-is"}
with no file write. -/
theorem c7_terminal_and_transient_tags (h : QChemErrorHandler) :
    (h.errors = ["input_file_error"] →
      QChemErrorHandler.correct h = Except.ok
        { qcinp := h.qcinp, errors := h.errors,
          actions := ActionsResult.none, written := Option.none }) ∧
    (h.errors = ["cannot_read_charges"] →
      QChemErrorHandler.correct h = Except.ok
        { qcinp := h.qcinp, errors := h.errors,
          actions := ActionsResult.none, written := Option.none }) ∧
    (h.errors = ["unknown_error"] →
      QChemErrorHandler.correct h = Except.ok
        { qcinp := h.qcinp, errors := h.errors,
          actions := ActionsResult.none, written := Option.none }) ∧
    (h.errors = ["failed_to_read_input"] →
      QChemErrorHandler.correct h = Except.ok
        { qcinp := h.qcinp, errors := h.errors,
          actions := ActionsResult.rerunAsIs, written := Option.none }) ∧
    (h.errors = ["IO_error"] →
      QChemErrorHandler.correct h = Except.ok
        { qcinp := h.qcinp, errors := h.errors,
          actions := ActionsResult.rerunAsIs, written := Option.none }) := by
  refine ⟨?_, ?_, ?_, ?_, ?_⟩ <;>
    (intro herr; simp [QChemErrorHandler.correct, herr])

/-- C7 witness: the five tag sets at the concrete default handler. -/
theorem c7_terminal_and_transient_tags_witness :
    ({ h0 with errors := ["input_file_error"] } : QChemErrorHandler).errors = ["input_file_error"] ∧
    QChemErrorHandler.correct { h0 with errors := ["input_file_error"] } = Except.ok
      { qcinp := h0.qcinp, errors := ["input_file_error"],
        actions := ActionsResult.none, written := Option.none } ∧
    QChemErrorHandler.correct { h0 with errors := ["failed_to_read_input"] } = Except.ok
      { qcinp := h0.qcinp, errors := ["failed_to_read_input"],
        actions := ActionsResult.rerunAsIs, written := Option.none } := by
  refine ⟨rfl, ?_, ?_⟩
  · exact (c7_terminal_and_transient_tags { h0 with errors := ["input_file_error"] }).1 rfl
  · exact (c7_terminal_and_transient_tags { h0 with errors := ["failed_to_read_input"] }).2.2.2.1 rfl

/-- C10: for the SCF_failed_to_converge tag the first branch fires whenever
the deck's max_scf_cycles differs from the configured limit in either
direction, overwriting it with the limit; in particular a value above the
limit is lowered to it. -/
theorem c10_scf_cap_inequality (h : QChemErrorHandler) (c : Int)
    (herr : h.errors = ["SCF_failed_to_converge"])
    (hget : remGet h.qcinp.rem "max_scf_cycles" = some (RemValue.int c))
    (hne : c ≠ h.scf_max_cycles) :
    QChemErrorHandler.correct h = Except.ok
      { qcinp := { h.qcinp with rem := remSet h.qcinp.rem "max_scf_cycles" (RemValue.int h.scf_max_cycles) },
        errors := h.errors,
        actions := ActionsResult.list [("max_scf_cycles", RemValue.int h.scf_max_cycles)],
        written := some { h.qcinp with rem := remSet h.qcinp.rem "max_scf_cycles" (RemValue.int h.scf_max_cycles) } } ∧
    remGet (remSet h.qcinp.rem "max_scf_cycles" (RemValue.int h.scf_max_cycles)) "max_scf_cycles"
      = some (RemValue.int h.scf_max_cycles) := by
  refine ⟨?_, remGet_remSet_self _ _ _⟩
  simp [QChemErrorHandler.correct, herr, QChemErrorHandler.scfBranch, pyNe, pyEqVal, hget, hne]

/-- C10 witness: a deck whose max_scf_cycles is 500, above the limit 200,
is lowered to 200. -/
theorem c10_scf_cap_inequality_witness :
    (500 : Int) ≠ (200 : Int) ∧
    QChemErrorHandler.correct
        { h0 with errors := ["SCF_failed_to_converge"],
                  qcinp := { rem := [("max_scf_cycles", RemValue.int 500)], molecule := mol0 } }
      = Except.ok
      { qcinp := { rem := [("max_scf_cycles", RemValue.int 200)], molecule := mol0 },
        errors := ["SCF_failed_to_converge"],
        actions := ActionsResult.list [("max_scf_cycles", RemValue.int 200)],
        written := some { rem := [("max_scf_cycles", RemValue.int 200)], molecule := mol0 } } := by
  refine ⟨by decide, ?_⟩
  exact (c10_scf_cap_inequality
    { h0 with errors := ["SCF_failed_to_converge"],
              qcinp := { rem := [("max_scf_cycles", RemValue.int 500)], molecule := mol0 } }
    500 rfl rfl (by decide)).1

/-- A handler carrying both the spec-spelled lambda tag and the
linear_dependent_basis tag, with a multi-step trajectory and matching spin
and charge, so the claimed earlier-ordered branch could fire. -/
def hC8 : QChemErrorHandler :=
  { h0 with errors := ["unable_to_determine_lambda", "linear_dependent_basis"],
            outdata := { errors := ["unable_to_determine_lambda", "linear_dependent_basis"],
                         energy_trajectory := [0, 1],
                         molecule_from_last_geometry :=
                           { spin_multiplicity := 1, charge := 0, geometry := 7 } } }

/-- C8 counterexample: with "unable_to_determine_lambda" (third in the
claim's order) present together with linear_dependent_basis (fourth),
correct() applies the linear_dependent_basis edit — switching the SCF
algorithm — and does not adopt the last geometry: the claim's listed tag
order does not govern the code, whose third recognized string is the
misspelled "unable_to_determine_lamda". -/
theorem c8_counterexample :
    hC8.errors.contains "unable_to_determine_lambda" = true ∧
    hC8.errors.contains "linear_dependent_basis" = true ∧
    QChemErrorHandler.correct hC8 = Except.ok
      { qcinp := { rem := [("scf_algorithm", RemValue.str "rca_diis")], molecule := mol0 },
        errors := hC8.errors,
        actions := ActionsResult.list [("scf_algorithm", RemValue.str "rca_diis")],
        written := some { rem := [("scf_algorithm", RemValue.str "rca_diis")], molecule := mol0 } } ∧
    mol0 ≠ hC8.outdata.molecule_from_last_geometry := by
  exact ⟨rfl, rfl, rfl, by decide⟩

/-- C8 (amended): every call of correct() executes exactly the branch of
the first tag of the code's recognized order — SCF_failed_to_converge,
out_of_opt_cycles, unable_to_determine_lamda (the code's spelling),
linear_dependent_basis, failed_to_transform_coords, input_file_error,
failed_to_read_input, IO_error, cannot_read_charges, unknown_error —
present in the captured tag list, and the defensive NameError branch when
none is present; no edits from a later-ordered tag's branch are applied. -/
theorem c8_first_match_wins (h : QChemErrorHandler) :
    QChemErrorHandler.correct h =
      (match firstTag h.errors with
       | some t => branchOf t h
       | Option.none => Except.error PyError.nameError) := by
  by_cases k1 : "SCF_failed_to_converge" ∈ h.errors
  · simp [QChemErrorHandler.correct, firstTag, tagOrder, branchOf, List.find?, k1]
  by_cases k2 : "out_of_opt_cycles" ∈ h.errors
  · simp [QChemErrorHandler.correct, firstTag, tagOrder, branchOf, List.find?, k1, k2]
  by_cases k3 : "unable_to_determine_lamda" ∈ h.errors
  · simp [QChemErrorHandler.correct, firstTag, tagOrder, branchOf, List.find?, k1, k2, k3]
  by_cases k4 : "linear_dependent_basis" ∈ h.errors
  · simp [QChemErrorHandler.correct, firstTag, tagOrder, branchOf, List.find?, k1, k2, k3, k4]
  by_cases k5 : "failed_to_transform_coords" ∈ h.errors
  · simp [QChemErrorHandler.correct, firstTag, tagOrder, branchOf, List.find?, k1, k2, k3, k4, k5]
  by_cases k6 : "input_file_error" ∈ h.errors
  · simp [QChemErrorHandler.correct, firstTag, tagOrder, branchOf, List.find?, k1, k2, k3, k4, k5, k6]
  by_cases k7 : "failed_to_read_input" ∈ h.errors
  · simp [QChemErrorHandler.correct, firstTag, tagOrder, branchOf, List.find?, k1, k2, k3, k4, k5, k6, k7]
  by_cases k8 : "IO_error" ∈ h.errors
  · simp [QChemErrorHandler.correct, firstTag, tagOrder, branchOf, List.find?, k1, k2, k3, k4, k5, k6, k7, k8]
  by_cases k9 : "cannot_read_charges" ∈ h.errors
  · simp [QChemErrorHandler.correct, firstTag, tagOrder, branchOf, List.find?, k1, k2, k3, k4, k5, k6, k7, k8, k9]
  by_cases k10 : "unknown_error" ∈ h.errors
  · simp [QChemErrorHandler.correct, firstTag, tagOrder, branchOf, List.find?, k1, k2, k3, k4, k5, k6, k7, k8, k9, k10]
  simp [QChemErrorHandler.correct, firstTag, tagOrder, branchOf, List.find?, k1, k2, k3, k4, k5, k6, k7, k8, k9, k10]

/-- The handler state that the next correct() call on the same instance
sees: self.qcinp holds the corrected deck; the configured limits and the
parsed output are unchanged between calls. -/
def afterCorrect (h : QChemErrorHandler) (o : CorrectOutcome) : QChemErrorHandler :=
  { h with qcinp := o.qcinp }

/-- The rung of the SCF remediation ladder the deck is at: 0 while the cap
differs from the limit, 1 while the algorithm lowercases to "diis" (or is
unset), 2 once neither edit applies (deferral). -/
def scfStage (h : QChemErrorHandler) : Nat :=
  if pyNe (remGet h.qcinp.rem "max_scf_cycles") (RemValue.int h.scf_max_cycles) then 0
  else
    match pyLower (remGetD h.qcinp.rem "scf_algorithm" (RemValue.str "diis")) with
    | Except.ok a => if a = "diis" then 1 else 2
    | Except.error _ => 2

/-- The rung of the out_of_opt_cycles ladder: 0 while the geometry cap
differs from the limit, 1 once it equals it (deferral). -/
def optStage (h : QChemErrorHandler) : Nat :=
  if pyNe (remGet h.qcinp.rem "geom_opt_max_cycles") (RemValue.int h.geom_max_cycles) then 0 else 1

/-- The rung of the unable_to_determine_lamda ladder: 0 while a multi-step
trajectory calls for geometry adoption, 1 while the algorithm is not yet
rca_diis, 2 once it is (deferral). -/
def lamdaStage (h : QChemErrorHandler) : Nat :=
  if h.outdata.energy_trajectory.length > 1 then 0
  else
    match pyLower (remGetD h.qcinp.rem "scf_algorithm" (RemValue.str "diis")) with
    | Except.ok a => if a ≠ "rca_diis" then 1 else 2
    | Except.error _ => 2

/-- The rung of the linear_dependent_basis ladder: 0 while the algorithm
differs from "rca_diis", 1 once it equals it (deferral). -/
def basisStage (h : QChemErrorHandler) : Nat :=
  if pyNe (remGet h.qcinp.rem "scf_algorithm") (RemValue.str "rca_diis") then 0 else 1

/-- The rung of the failed_to_transform_coords ladder: 0 while the
symmetry flags still call for an edit, 1 once sym_ignore is truthy and
symmetry falsy (deferral). -/
def coordsStage (h : QChemErrorHandler) : Nat :=
  if !truthy (remGet h.qcinp.rem "sym_ignore") || truthy (remGet h.qcinp.rem "symmetry") then 0 else 1

/-- One successful SCF branch run never lowers the SCF ladder rung. -/
theorem scfBranch_stage_mono (h : QChemErrorHandler) (o : CorrectOutcome)
    (hok : QChemErrorHandler.scfBranch h = Except.ok o) :
    scfStage h ≤ scfStage (afterCorrect h o) := by
  unfold QChemErrorHandler.scfBranch at hok
  by_cases hpy : pyNe (remGet h.qcinp.rem "max_scf_cycles") (RemValue.int h.scf_max_cycles) = true
  · have h1 : scfStage h = 0 := by simp [scfStage, hpy]
    rw [h1]
    exact Nat.zero_le _
  · have hpyf : pyNe (remGet h.qcinp.rem "max_scf_cycles") (RemValue.int h.scf_max_cycles) = false :=
      by simpa using hpy
    simp only [hpyf, Bool.false_eq_true, if_false] at hok
    cases hcase : pyLower (remGetD h.qcinp.rem "scf_algorithm" (RemValue.str "diis")) with
    | error e =>
        rw [hcase] at hok
        exact Except.noConfusion hok
    | ok a =>
        rw [hcase] at hok
        by_cases ha : a = "diis"
        · subst ha
          simp only [if_pos rfl] at hok
          injection hok with h2
          subst h2
          have hget : remGet (remSet h.qcinp.rem "scf_algorithm" (RemValue.str "rca_diis")) "max_scf_cycles"
              = remGet h.qcinp.rem "max_scf_cycles" :=
            remGet_remSet_ne _ _ _ _ (by decide)
          have hs1 : scfStage h = 1 := by simp [scfStage, hpyf, hcase]
          have hs2 : scfStage (afterCorrect h
              { qcinp := { rem := remSet h.qcinp.rem "scf_algorithm" (RemValue.str "rca_diis"),
                           molecule := h.qcinp.molecule },
                errors := h.errors,
                actions := ActionsResult.list [("scf_algorithm", RemValue.str "rca_diis")],
                written := some { rem := remSet h.qcinp.rem "scf_algorithm" (RemValue.str "rca_diis"),
                                  molecule := h.qcinp.molecule } }) = 2 := by
            simp [scfStage, afterCorrect, hget, hpyf, remGetD, remGet_remSet_self, pyLower,
                  strLower_rca_diis]
          rw [hs1, hs2]
          exact Nat.le_succ 1
        · simp only [if_neg ha] at hok
          injection hok with h2
          subst h2
          simp [afterCorrect]


/-- One successful opt-cycles branch run never lowers its ladder rung. -/
theorem optBranch_stage_mono (h : QChemErrorHandler) (o : CorrectOutcome)
    (hok : QChemErrorHandler.optBranch h = Except.ok o) :
    optStage h ≤ optStage (afterCorrect h o) := by
  unfold QChemErrorHandler.optBranch at hok
  by_cases hpy : pyNe (remGet h.qcinp.rem "geom_opt_max_cycles") (RemValue.int h.geom_max_cycles) = true
  · have h1 : optStage h = 0 := by simp [optStage, hpy]
    rw [h1]
    exact Nat.zero_le _
  · have hpyf : pyNe (remGet h.qcinp.rem "geom_opt_max_cycles") (RemValue.int h.geom_max_cycles) = false :=
      by simpa using hpy
    simp only [hpyf, Bool.false_eq_true, if_false] at hok
    injection hok with h2
    subst h2
    simp [afterCorrect]

/-- One successful lamda branch run never lowers its ladder rung. -/
theorem lamdaBranch_stage_mono (h : QChemErrorHandler) (o : CorrectOutcome)
    (hok : QChemErrorHandler.lamdaBranch h = Except.ok o) :
    lamdaStage h ≤ lamdaStage (afterCorrect h o) := by
  unfold QChemErrorHandler.lamdaBranch at hok
  by_cases htraj : h.outdata.energy_trajectory.length > 1
  · have h1 : lamdaStage h = 0 := by simp [lamdaStage, htraj]
    rw [h1]
    exact Nat.zero_le _
  · simp only [if_neg htraj] at hok
    cases hcase : pyLower (remGetD h.qcinp.rem "scf_algorithm" (RemValue.str "diis")) with
    | error e =>
        rw [hcase] at hok
        exact Except.noConfusion hok
    | ok a =>
        rw [hcase] at hok
        by_cases ha : a = "rca_diis"
        · simp only [ha, ne_eq, not_true_eq_false, if_false, if_neg] at hok
          injection hok with h2
          subst h2
          simp [afterCorrect]
        · simp only [if_pos ha] at hok
          injection hok with h2
          subst h2
          have h1 : lamdaStage h = 1 := by simp [lamdaStage, htraj, hcase, ha]
          have h2 : lamdaStage (afterCorrect h
              { qcinp := { rem := remSet h.qcinp.rem "scf_algorithm" (RemValue.str "rca_diis"),
                           molecule := h.qcinp.molecule },
                errors := h.errors,
                actions := ActionsResult.list [("scf_algorithm", RemValue.str "rca_diis")],
                written := some { rem := remSet h.qcinp.rem "scf_algorithm" (RemValue.str "rca_diis"),
                                  molecule := h.qcinp.molecule } }) = 2 := by
            simp [lamdaStage, afterCorrect, htraj, remGetD, remGet_remSet_self, pyLower,
                  strLower_rca_diis]
          rw [h1, h2]
          exact Nat.le_succ 1

/-- One successful basis branch run never lowers its ladder rung. -/
theorem basisBranch_stage_mono (h : QChemErrorHandler) (o : CorrectOutcome)
    (hok : QChemErrorHandler.basisBranch h = Except.ok o) :
    basisStage h ≤ basisStage (afterCorrect h o) := by
  unfold QChemErrorHandler.basisBranch at hok
  by_cases hpy : pyNe (remGet h.qcinp.rem "scf_algorithm") (RemValue.str "rca_diis") = true
  · have h1 : basisStage h = 0 := by simp [basisStage, hpy]
    rw [h1]
    exact Nat.zero_le _
  · have hpyf : pyNe (remGet h.qcinp.rem "scf_algorithm") (RemValue.str "rca_diis") = false :=
      by simpa using hpy
    simp only [hpyf, Bool.false_eq_true, if_false] at hok
    injection hok with h2
    subst h2
    simp [afterCorrect]

/-- One successful coords branch run never lowers its ladder rung. -/
theorem coordsBranch_stage_mono (h : QChemErrorHandler) (o : CorrectOutcome)
    (hok : QChemErrorHandler.coordsBranch h = Except.ok o) :
    coordsStage h ≤ coordsStage (afterCorrect h o) := by
  unfold QChemErrorHandler.coordsBranch at hok
  by_cases hsym : (!truthy (remGet h.qcinp.rem "sym_ignore") || truthy (remGet h.qcinp.rem "symmetry")) = true
  · have h1 : coordsStage h = 0 := by simp [coordsStage, hsym]
    rw [h1]
    exact Nat.zero_le _
  · have hsymf : (!truthy (remGet h.qcinp.rem "sym_ignore") || truthy (remGet h.qcinp.rem "symmetry")) = false :=
      by simpa using hsym
    simp only [hsymf, Bool.false_eq_true, if_false] at hok
    injection hok with h2
    subst h2
    simp [afterCorrect]

/-- C9: for each singleton tag set of a recognized structural
(non-terminal) tag, a successful correct() call never regresses the
remediation ladder: the rung of the deck left for the next call is at
least the rung before the call, so repeated calls escalate monotonically
(for SCF: cycle-cap edit, then algorithm switch, then deferral). -/
theorem c9_monotone_ladder (h : QChemErrorHandler) (o : CorrectOutcome)
    (hok : QChemErrorHandler.correct h = Except.ok o) :
    ("SCF_failed_to_converge" ∈ h.errors →
        scfStage h ≤ scfStage (afterCorrect h o)) ∧
    ("SCF_failed_to_converge" ∉ h.errors → "out_of_opt_cycles" ∈ h.errors →
        optStage h ≤ optStage (afterCorrect h o)) ∧
    ("SCF_failed_to_converge" ∉ h.errors → "out_of_opt_cycles" ∉ h.errors →
     "unable_to_determine_lamda" ∈ h.errors →
        lamdaStage h ≤ lamdaStage (afterCorrect h o)) ∧
    ("SCF_failed_to_converge" ∉ h.errors → "out_of_opt_cycles" ∉ h.errors →
     "unable_to_determine_lamda" ∉ h.errors → "linear_dependent_basis" ∈ h.errors →
        basisStage h ≤ basisStage (afterCorrect h o)) ∧
    ("SCF_failed_to_converge" ∉ h.errors → "out_of_opt_cycles" ∉ h.errors →
     "unable_to_determine_lamda" ∉ h.errors → "linear_dependent_basis" ∉ h.errors →
     "failed_to_transform_coords" ∈ h.errors →
        coordsStage h ≤ coordsStage (afterCorrect h o)) := by
  refine ⟨?_, ?_, ?_, ?_, ?_⟩
  · intro k1
    have hc : QChemErrorHandler.correct h = QChemErrorHandler.scfBranch h := by
      simp [QChemErrorHandler.correct, k1]
    exact scfBranch_stage_mono h o (hc.symm.trans hok)
  · intro k1 k2
    have hc : QChemErrorHandler.correct h = QChemErrorHandler.optBranch h := by
      simp [QChemErrorHandler.correct, k1, k2]
    exact optBranch_stage_mono h o (hc.symm.trans hok)
  · intro k1 k2 k3
    have hc : QChemErrorHandler.correct h = QChemErrorHandler.lamdaBranch h := by
      simp [QChemErrorHandler.correct, k1, k2, k3]
    exact lamdaBranch_stage_mono h o (hc.symm.trans hok)
  · intro k1 k2 k3 k4
    have hc : QChemErrorHandler.correct h = QChemErrorHandler.basisBranch h := by
      simp [QChemErrorHandler.correct, k1, k2, k3, k4]
    exact basisBranch_stage_mono h o (hc.symm.trans hok)
  · intro k1 k2 k3 k4 k5
    have hc : QChemErrorHandler.correct h = QChemErrorHandler.coordsBranch h := by
      simp [QChemErrorHandler.correct, k1, k2, k3, k4, k5]
    exact coordsBranch_stage_mono h o (hc.symm.trans hok)

/-- A fresh handler with the singleton SCF tag and an empty deck. -/
def hC9 : QChemErrorHandler := { h0 with errors := ["SCF_failed_to_converge"] }

/-- The outcome of the first correct() call on hC9. -/
def oC9 : CorrectOutcome :=
  { qcinp := { rem := [("max_scf_cycles", RemValue.int 200)], molecule := mol0 },
    errors := ["SCF_failed_to_converge"],
    actions := ActionsResult.list [("max_scf_cycles", RemValue.int 200)],
    written := some { rem := [("max_scf_cycles", RemValue.int 200)], molecule := mol0 } }

/-- C9 witness: the SCF ladder does not regress across the first concrete
correct() call. -/
theorem c9_monotone_ladder_witness :
    QChemErrorHandler.correct hC9 = Except.ok oC9 ∧
    scfStage hC9 ≤ scfStage (afterCorrect hC9 oC9) :=
  ⟨rfl, (c9_monotone_ladder hC9 oC9 rfl).1 (by decide)⟩

end Custodian
